import Mathlib

/-!
Verification development for the catalogue-search field engine
(`app/lib/fields.py`, `app/search/forms.py`, `app/search/views.py`).

The Python classes are shallowly embedded: each field variant's
`bind` / `validate` / `clean` / `items` logic becomes an executable Lean
function over explicit state records; `ValidationError` raising becomes
`Except String`; Python `None` / dict / date cleaned values become an
explicit sum type.  Display-only attributes that no claim touches
(`id`, `label`, `hint`) are omitted from the state records.
-/

/-- Decidable equality for `Except`, used to evaluate concrete runs. -/
instance {ε α : Type} [DecidableEq ε] [DecidableEq α] : DecidableEq (Except ε α) := fun a b =>
  match a, b with
  | .ok x, .ok y =>
      if h : x = y then isTrue (by rw [h]) else isFalse (by intro hc; cases hc; exact h rfl)
  | .error x, .error y =>
      if h : x = y then isTrue (by rw [h]) else isFalse (by intro hc; cases hc; exact h rfl)
  | .ok _, .error _ => isFalse (by intro hc; cases hc)
  | .error _, .ok _ => isFalse (by intro hc; cases hc)

/-! ## Python primitive helpers -/

/-- Models Python `str.strip()` (and the whitespace stripping done by
`int()`): drop whitespace characters from both ends. -/
def pyStrip (s : String) : String :=
  String.mk ((s.data.dropWhile Char.isWhitespace).reverse.dropWhile Char.isWhitespace).reverse

/-- Decimal digits to a natural number. -/
def digitsToNat (l : List Char) : Nat :=
  l.foldl (fun acc c => 10 * acc + (c.toNat - '0'.toNat)) 0

/-- Models Python `int(s)` on decimal strings: surrounding whitespace is
ignored, an optional single leading sign is allowed, and at least one
decimal digit is required; returns `none` where Python raises
`ValueError`. -/
def pyParseInt (s : String) : Option Int :=
  match (pyStrip s).data with
  | [] => none
  | '-' :: rest =>
      if rest ≠ [] ∧ rest.all Char.isDigit then some (-(digitsToNat rest : Int)) else none
  | '+' :: rest =>
      if rest ≠ [] ∧ rest.all Char.isDigit then some (digitsToNat rest : Int) else none
  | l => if l.all Char.isDigit then some (digitsToNat l : Int) else none

/-- Insert a `,` after every third character, counting from the head of an
already-reversed digit list. -/
def groupRevDigits : List Char → List Char
  | a :: b :: c :: d :: rest => a :: b :: c :: ',' :: groupRevDigits (d :: rest)
  | l => l

/-- Models the Python format spec `f"{n:,}"` for a non-negative integer:
decimal digits grouped in threes by commas. -/
def formatThousands (n : Nat) : String :=
  String.mk (groupRevDigits (Nat.repr n).data.reverse).reverse

/-! ## Dates (`datetime.date` and `calendar.monthrange`) -/

/-- Gregorian leap-year rule, as used by `datetime` / `calendar`. -/
def isLeapYear (y : Int) : Bool :=
  y % 4 = 0 && (y % 100 ≠ 0 || y % 400 = 0)

/-- `calendar.monthrange(y, m)[1]`: the number of days in month `m` of
year `y` (`m` is meaningful for `1 ≤ m ≤ 12`). -/
def daysInMonth (y m : Int) : Int :=
  if m = 2 then (if isLeapYear y then 29 else 28)
  else if m = 4 ∨ m = 6 ∨ m = 9 ∨ m = 11 then 30
  else 31

/-- A `datetime.date` value: a year/month/day triple.  Values produced by
the embedded code always satisfy `isRealDate`. -/
structure PyDate where
  year : Int
  month : Int
  day : Int
deriving DecidableEq, Repr

/-- The acceptance condition of the `datetime.date` constructor:
`MINYEAR ≤ year ≤ MAXYEAR`, a valid month, and a day within that month. -/
def isRealDate (y m d : Int) : Bool :=
  1 ≤ y && y ≤ 9999 && 1 ≤ m && m ≤ 12 && 1 ≤ d && d ≤ daysInMonth y m

/-- Python date comparison `a < b` (tuple order on year, month, day). -/
def PyDate.ltb (a b : PyDate) : Bool :=
  a.year < b.year ||
    (a.year = b.year && (a.month < b.month || (a.month = b.month && a.day < b.day)))

/-- Left-pad the decimal representation of a non-negative integer to two
characters with `0`, as `strftime` does for `%d` and `%m`. -/
def pad2 (n : Int) : String :=
  let s := n.toNat.repr
  if s.length < 2 then "0" ++ s else s

/-- `date.strftime("%d-%m-%Y")` with `DATE_DISPLAY_FORMAT = "%d-%m-%Y"`
(zero-padded day and month, unpadded year as printed by glibc). -/
def strftimeDisplay (d : PyDate) : String :=
  pad2 d.day ++ "-" ++ pad2 d.month ++ "-" ++ d.year.toNat.repr

example : formatThousands 1234567 = "1,234,567" := by decide
example : formatThousands 100 = "100" := by decide
example : pyParseInt " 2023 " = some 2023 := by decide
example : pyParseInt "20x3" = none := by decide
example : daysInMonth 2024 2 = 29 := by decide
example : strftimeDisplay ⟨2000, 1, 1⟩ = "01-01-2000" := by decide

/-! ## `CharField` (`app/lib/fields.py` 121-134) -/

/-- `BaseField.validate`: raises "Value is required." when `required` and
the value is falsy; specialised to a string value (falsy ⟺ empty). -/
def baseValidateStr (required : Bool) (value : String) : Except String Unit :=
  if required && value = "" then .error "Value is required." else .ok ()

/-- `CharField.clean`: base validation, then `str(value).strip()` for a
truthy value and `""` otherwise. -/
def CharField.clean (required : Bool) (value : String) : Except String String :=
  match baseValidateStr required value with
  | .error e => .error e
  | .ok _ => .ok (if value = "" then "" else pyStrip value)

/-! ## `ChoiceField` (`app/lib/fields.py` 137-179) -/

/-- `value[-1]` on a list of strings known to be non-empty (models the
Python negative index after the `[""]` defaulting). -/
def pyLast (l : List String) : String := l.getLastD ""

/-- `ChoiceField.bind` / `CharField.bind` value extraction: an empty input
list is replaced by `[""]`, then the last element is taken. -/
def choiceBindValue (input : List String) : String :=
  pyLast (if input.isEmpty then [""] else input)

/-- The invalid-choice message of `ChoiceField.validate`
(`value or 'Empty param value'` in the f-string). -/
def invalidChoiceMsg (valid_choices : List String) (value : String) : String :=
  "Enter a valid choice. [" ++ (if value = "" then "Empty param value" else value) ++
    "] is not one of the available choices. Valid choices are [" ++
    String.intercalate ", " valid_choices ++ "]"

/-- `ChoiceField.validate`: base required check only when `required`, then
membership of the bound value in the configured choice values. -/
def ChoiceField.validate (required : Bool) (choices : List (String × String))
    (value : String) : Except String Unit :=
  match (if required then baseValidateStr required value else .ok ()) with
  | .error e => .error e
  | .ok _ =>
    let valid_choices := choices.map Prod.fst
    if valid_choices.contains value then .ok ()
    else .error (invalidChoiceMsg valid_choices value)

/-- One record of the front-end `items` payload.  The Python code omits
the `"checked"` key instead of storing `False`; omission is modelled as
`checked = false`. -/
structure Item where
  text : String
  value : String
  checked : Bool
deriving DecidableEq, Repr

/-- `ChoiceField.items`: one record per configured choice, `checked` on
entries whose value equals the bound value. -/
def ChoiceField.items (choices : List (String × String)) (value : String) : List Item :=
  choices.map (fun p => if p.1 = value
    then { text := p.2, value := p.1, checked := true }
    else { text := p.2, value := p.1, checked := false })

/-! ## Static choice configurations from `app/search` -/

/-- The `online` field's choices (`CatalogueSearchTnaForm.add_fields`,
`app/search/forms.py` 114-121). -/
def onlineChoices : List (String × String) :=
  [("", "All records"), ("true", "Available online only")]

/-- The `Aggregation` table of `app/search/buckets.py`:
`(field_name, aggs, long_aggs)` per member. -/
def aggregationTable : List (String × String × String) :=
  [("level", "level", ""),
   ("collection", "collection", "longCollection"),
   ("held_by", "heldBy", "longHeldBy"),
   ("closure", "closure", ""),
   ("subject", "subject", "longSubject")]

/-- `Aggregation.as_input_choices_for_long_aggs`: the default no-filter
choice followed by `(long_aggs, field_name)` for each member that
supports long aggregations. -/
def asInputChoicesForLongAggs : List (String × String) :=
  ("", "No filter") ::
    (aggregationTable.filter (fun t => t.2.2 ≠ "")).map (fun t => (t.2.2, t.1))

example : asInputChoicesForLongAggs =
    [("", "No filter"), ("longCollection", "collection"),
     ("longHeldBy", "held_by"), ("longSubject", "subject")] := by decide
example : ChoiceField.validate false onlineChoices "" = .ok () := by decide
example : ChoiceField.validate true [("a", "A")] "" = .error "Value is required." := by decide
example : ChoiceField.validate false [("a", "A")] "b" =
    .error "Enter a valid choice. [b] is not one of the available choices. Valid choices are [a]" := by
  decide

/-! ## `DynamicMultipleChoiceField` (`app/lib/fields.py` 182-347) -/

/-- One aggregation entry of the API response
(`{"value": ..., "doc_count": ...}`). -/
structure AggEntry where
  value : String
  doc_count : Nat
deriving DecidableEq, Repr

/-- The state of a `DynamicMultipleChoiceField` relevant to the claims.
`error = none` models the empty error dict `{}`;
`more_filter_options_available = none` models the attribute not existing
until `APIMixin.process_api_result` creates it by assignment. -/
structure DynField where
  required : Bool
  configured_choices : List (String × String)
  choices : List (String × String)
  choices_updated : Bool
  validate_input : Bool
  valid_choices : List String
  value : List String
  error : Option String
  more_filter_choices_available : Bool
  more_filter_options_available : Option Bool
deriving DecidableEq, Repr

/-- `DynamicMultipleChoiceField.__init__`: `validate_input` defaults to
true when choices are provided and is coerced to false otherwise;
`choices` and `configured_choices` both start as the constructor
argument; `valid_choices` is cached from the choices when validating
input; `more_filter_choices_available` starts false. -/
def DynField.init (choices : List (String × String)) (validate_input : Option Bool)
    (required : Bool) : DynField :=
  let vi := if choices.isEmpty then false else validate_input.getD true
  { required := required
    configured_choices := choices
    choices := choices
    choices_updated := false
    validate_input := vi
    valid_choices := if vi then choices.map Prod.fst else []
    value := []
    error := none
    more_filter_choices_available := false
    more_filter_options_available := none }

/-- `BaseField.bind` as it affects a dynamic field's state: store the
request value. -/
def DynField.bind (f : DynField) (input : List String) : DynField :=
  { f with value := input }

/-- `BaseField.add_error`: store the message (the error dict becomes
`{"text": message}`). -/
def DynField.add_error (f : DynField) (message : String) : DynField :=
  { f with error := some message }

/-- `DynamicMultipleChoiceField.configured_choice_labels[v]`: the label of
the last configured pair carrying value `v` (a Python dict comprehension
keeps the last write per key). -/
def DynField.configured_choice_labels (f : DynField) (v : String) : Option String :=
  List.lookup v f.configured_choices.reverse

/-- `DynamicMultipleChoiceField.choice_label_from_api_data`: configured
label when available, else the raw value, with the thousands-grouped
count appended. -/
def DynField.choice_label_from_api_data (f : DynField) (data : AggEntry) : String :=
  match f.configured_choice_labels data.value with
  | some lbl => lbl ++ " (" ++ formatThousands data.doc_count ++ ")"
  | none => data.value ++ " (" ++ formatThousands data.doc_count ++ ")"

/-- `DynamicMultipleChoiceField.update_choices`: the source's loop builds
the fresh choices list and the set of values with hits in one pass; the
Python `set` is modelled as a list queried by membership only. -/
def DynField.update_choices (f : DynField) (choice_api_data : List AggEntry)
    (selected_values : List String) : DynField :=
  let loop := choice_api_data.foldl
    (fun (acc : List (String × String) × List String) item =>
      (acc.1 ++ [(item.value, f.choice_label_from_api_data item)], acc.2 ++ [item.value]))
    ([], [])
  let choice_vals_with_hits := loop.2
  let missing := selected_values.filter (fun v => ¬ choice_vals_with_hits.contains v)
  let appended := missing.map (fun v =>
    (v, (f.configured_choice_labels v).getD v ++ " (0)"))
  { f with choices := loop.1 ++ appended, choices_updated := true }

/-- `DynamicMultipleChoiceField.validate`: base required check and subset
check against the cached valid choices. -/
def DynField.validate (f : DynField) : Except String Unit :=
  if f.required || f.validate_input then
    if f.required && f.value.isEmpty then .error "Value is required."
    else if f.validate_input
        && ¬ f.value.all (fun v => f.valid_choices.contains v) then
      .error ("Enter a valid choice. Value(s) [" ++ String.intercalate ", " f.value ++
        "] do not belong to the available choices. Valid choices are [" ++
        String.intercalate ", " f.valid_choices ++ "]")
    else .ok ()
  else .ok ()

/-- Render `choices` as front-end items, `checked` for values contained in
the bound value list (the loop at the end of `items`). -/
def renderChoices (choices : List (String × String)) (value : List String) : List Item :=
  choices.map (fun p => if value.contains p.1
    then { text := p.2, value := p.1, checked := true }
    else { text := p.2, value := p.1, checked := false })

/-- The `items` property of `DynamicMultipleChoiceField`, including its
side effect: on error, coerce with empty data when configured choices
exist; otherwise, when choices were never updated, coerce with empty
aggregation data and the bound value.  Returns the updated field state
and the rendered items. -/
def DynField.items_run (f : DynField) : DynField × List Item :=
  let f' :=
    if f.error.isSome then
      (if f.configured_choices.isEmpty then f else f.update_choices [] [])
    else
      (if f.choices_updated then f else f.update_choices [] f.value)
  (f', renderChoices f'.choices f'.value)

/-- `APIMixin.process_api_result` restricted to a single matched dynamic
field (`app/search/views.py` 160-169): update the choices from the
aggregation entries and the field's bound value, then assign
`bool(aggregation.get("other", 0))` to the attribute named
`more_filter_options_available` in the source. -/
def processApiResultField (f : DynField) (entries : List AggEntry) (other : Nat) : DynField :=
  let f' := f.update_choices entries f.value
  { f' with more_filter_options_available := some (other ≠ 0) }

example : ((DynField.init [] none false).bind ["x"]).items_run =
    ((((DynField.init [] none false).bind ["x"]).update_choices [] ["x"]),
      [{ text := "x (0)", value := "x", checked := true }]) := by decide
example : ((DynField.init [("london", "London")] none false).update_choices
    [⟨"london", 10⟩] ["london", "leeds"]).choices =
    [("london", "London (10)"), ("leeds", "leeds (0)")] := by decide

/-! ## `MultiPartDateField` (`app/lib/fields.py` 350-523) -/

/-- The bound value of a multi-part date field: the dict with exactly the
keys `year`, `month`, `day` built by `bind` (absent inputs already
defaulted to the empty string there). -/
structure DateParts where
  year : String
  month : String
  day : String
deriving DecidableEq, Repr

/-- `MultiPartDateField._validate_required`: progressive mode needs a
year; non-progressive mode needs every part. -/
def mpValidateRequired (progressive required : Bool) (v : DateParts) : Except String Unit :=
  if required then
    if progressive then
      (if v.year = "" then .error "Year value is required." else .ok ())
    else
      (if v.year = "" ∨ v.month = "" ∨ v.day = "" then
        .error "All date parts (day, month, year) are required." else .ok ())
  else .ok ()

/-- `MultiPartDateField._is_complete_date`: all parts filled or none. -/
def mpIsCompleteDate (v : DateParts) : Bool :=
  (v.year ≠ "" && v.month ≠ "" && v.day ≠ "") ||
    (v.year = "" && v.month = "" && v.day = "")

/-- `MultiPartDateField._validate_year_only`: `none` when the year part is
empty, otherwise the parsed year after the integer and range checks. -/
def mpValidateYearOnly (v : DateParts) : Except String (Option Int) :=
  if v.year = "" then .ok none else
    match pyParseInt v.year with
    | none => .error "Year must be an integer."
    | some n => if 1 ≤ n ∧ n ≤ 9999 then .ok (some n)
        else .error "Year must be between 1 and 9999."

/-- `MultiPartDateField._validate_month_only`. -/
def mpValidateMonthOnly (v : DateParts) : Except String (Option Int) :=
  if v.month = "" then .ok none else
    match pyParseInt v.month with
    | none => .error "Month must be an integer."
    | some n => if 1 ≤ n ∧ n ≤ 12 then .ok (some n)
        else .error "Month must be between 1 and 12."

/-- `MultiPartDateField._validate_day_only`. -/
def mpValidateDayOnly (v : DateParts) : Except String (Option Int) :=
  if v.day = "" then .ok none else
    match pyParseInt v.day with
    | none => .error "Day must be an integer."
    | some n => if 1 ≤ n ∧ n ≤ 31 then .ok (some n)
        else .error "Day must be between 1 and 31."

/-- `MultiPartDateField._validate_full_date`: the `date(year, month, day)`
constructor raising `ValueError` on an impossible combination. -/
def mpValidateFullDate (y m d : Int) : Except String Unit :=
  if isRealDate y m d then .ok ()
  else .error "Entered date must be a real date, for example Year 2017, Month 9, Day 23"

/-- Python truthiness of an `int | None` value (`None` and `0` falsy). -/
def pyTruthyOptInt : Option Int → Bool
  | none => false
  | some n => n ≠ 0

/-- `MultiPartDateField.validate`: required check, non-progressive
completeness check, the three part checks in year → month → day order
(each raising stops validation), then — when all three are truthy —
the real-date check. -/
def mpValidate (progressive required : Bool) (v : DateParts) : Except String Unit :=
  match mpValidateRequired progressive required v with
  | .error e => .error e
  | .ok _ =>
    if ¬ progressive ∧ ¬ mpIsCompleteDate v then
      .error "Either all or none of the date parts (day, month, year) must be provided."
    else
      match mpValidateYearOnly v with
      | .error e => .error e
      | .ok year_int =>
        match mpValidateMonthOnly v with
        | .error e => .error e
        | .ok month_int =>
          match mpValidateDayOnly v with
          | .error e => .error e
          | .ok day_int =>
            if pyTruthyOptInt year_int && pyTruthyOptInt month_int
                && pyTruthyOptInt day_int then
              mpValidateFullDate (year_int.getD 0) (month_int.getD 0) (day_int.getD 0)
            else .ok ()

/-- The result of `MultiPartDateField.clean`: a `date`, the raw part dict
(progressive partial input), or Python `None`. -/
inductive CleanedDate where
  | date (d : PyDate)
  | parts (p : DateParts)
  | pyNone
deriving DecidableEq, Repr

/-- `MultiPartDateField.clean`: validate, then build a `date` when all
three parts are non-empty (validation already guaranteed the parts parse
and form a real date), else hand the partial dict back in progressive
mode or clean to `None`. -/
def mpClean (progressive required : Bool) (v : DateParts) : Except String CleanedDate :=
  match mpValidate progressive required v with
  | .error e => .error e
  | .ok _ =>
    if v.year ≠ "" ∧ v.month ≠ "" ∧ v.day ≠ "" then
      .ok (.date ⟨(pyParseInt v.year).getD 0, (pyParseInt v.month).getD 0,
        (pyParseInt v.day).getD 0⟩)
    else if progressive then
      .ok (.parts v)
    else
      .ok .pyNone

/-- `FromDateField._create_date_from_parts`: missing month and day default
to `01`. -/
def FromDateField.create_date_from_parts (p : DateParts) : PyDate :=
  let month := if p.month = "" then "01" else p.month
  let day := if p.day = "" then "01" else p.day
  ⟨(pyParseInt p.year).getD 0, (pyParseInt month).getD 0, (pyParseInt day).getD 0⟩

/-- `ToDateField._create_date_from_parts`: with a month, the day becomes
`calendar.monthrange(year, month)[1]`; without one, the date becomes
31st December. -/
def ToDateField.create_date_from_parts (p : DateParts) : PyDate :=
  let y := (pyParseInt p.year).getD 0
  if p.month ≠ "" then
    let m := (pyParseInt p.month).getD 0
    ⟨y, m, daysInMonth y m⟩
  else
    ⟨y, 12, 31⟩

/-- `BaseProgressiveDateField.clean`, parameterised by the variant's
`_create_date_from_parts`: a partial dict with a year is progressed to a
full date; without a year it cleans to `None`. -/
def progressiveClean (fill : DateParts → PyDate) (progressive required : Bool)
    (v : DateParts) : Except String CleanedDate :=
  match mpClean progressive required v with
  | .error e => .error e
  | .ok (.parts p) => if p.year ≠ "" then .ok (.date (fill p)) else .ok .pyNone
  | .ok c => .ok c

/-- `FromDateField.clean`. -/
def fromDateClean (progressive required : Bool) (v : DateParts) : Except String CleanedDate :=
  progressiveClean FromDateField.create_date_from_parts progressive required v

/-- `ToDateField.clean`. -/
def toDateClean (progressive required : Bool) (v : DateParts) : Except String CleanedDate :=
  progressiveClean ToDateField.create_date_from_parts progressive required v

example : fromDateClean true false ⟨"2023", "", ""⟩ = .ok (.date ⟨2023, 1, 1⟩) := by decide
example : toDateClean true false ⟨"2023", "", ""⟩ = .ok (.date ⟨2023, 12, 31⟩) := by decide
example : toDateClean true false ⟨"2023", "2", ""⟩ = .ok (.date ⟨2023, 2, 28⟩) := by decide
example : toDateClean true false ⟨"2024", "2", ""⟩ = .ok (.date ⟨2024, 2, 29⟩) := by decide
example : mpValidate true false ⟨"2023", "2", "30"⟩ =
    .error "Entered date must be a real date, for example Year 2017, Month 9, Day 23" := by decide
example : mpValidate true false ⟨"2023", "13", "1"⟩ =
    .error "Month must be between 1 and 12." := by decide
example : mpClean false false ⟨"", "", ""⟩ = .ok .pyNone := by decide

/-! ## `CatalogueSearchBaseForm.validate_date_range`
(`app/search/forms.py` 49-84) -/

/-- The state of a date field as seen by cross-validation:
`cleaned_internal` models `_cleaned` and `error` models `_error`. -/
structure DateFieldState where
  cleaned_internal : Option PyDate
  error : Option String
deriving DecidableEq, Repr

/-- The `cleaned` property of `BaseField`: the internally stored value
only while no error is present. -/
def DateFieldState.cleaned (f : DateFieldState) : Option PyDate :=
  if f.error = none then f.cleaned_internal else none

/-- `BaseField.add_error` on a date field's state. -/
def DateFieldState.add_error (f : DateFieldState) (message : String) : DateFieldState :=
  { f with error := some message }

/-- The field-level message attached to the from-field. -/
def dateRangeFieldMsg : String :=
  "This date must be earlier than or equal to the 'to' date."

/-- The form-level cross-field message, built from the cleaned dates
before the error is attached. -/
def dateRangeCrossMsg (prefix_text : String) (d_from d_to : PyDate) : String :=
  prefix_text ++ ": 'from' date (" ++ strftimeDisplay d_from ++
    ") cannot be after 'to' date (" ++ strftimeDisplay d_to ++ ")."

/-- `validate_date_range`: when both fields have a cleaned date and the
from-date is after the to-date, attach the field error to the from-field
and return the single cross-field message; otherwise leave the from-field
unchanged and return no messages.  Returns the (possibly updated)
from-field state and the message list. -/
def validateDateRange (date_from date_to : DateFieldState) (prefix_text : String) :
    DateFieldState × List String :=
  match date_from.cleaned, date_to.cleaned with
  | some df, some dt =>
      if PyDate.ltb dt df then
        (date_from.add_error dateRangeFieldMsg, [dateRangeCrossMsg prefix_text df dt])
      else (date_from, [])
  | _, _ => (date_from, [])

/-! ## A unified view of the field variants for the validity invariant -/

/-- The externally visible cleaned value of any field variant: Python
`None` (also the initial `_cleaned`), a string, a list of strings, a
part dict, or a date. -/
inductive PyValue where
  | pyNone
  | str (s : String)
  | strList (l : List String)
  | parts (p : DateParts)
  | date (d : PyDate)
deriving DecidableEq, Repr

/-- Repackage a cleaned multi-part date result as a `PyValue`. -/
def CleanedDate.toPyValue : CleanedDate → PyValue
  | .date d => .date d
  | .parts p => .parts p
  | .pyNone => .pyNone

/-- A bound field of any of the variants defined in `app/lib/fields.py`,
together with its configuration and bound value. -/
inductive FieldSpec where
  | char (required : Bool) (value : String)
  | choice (required : Bool) (choices : List (String × String)) (value : String)
  | dynamicMultipleChoice (f : DynField)
  | multiPartDate (progressive required : Bool) (value : DateParts)
  | fromDate (progressive required : Bool) (value : DateParts)
  | toDate (progressive required : Bool) (value : DateParts)
deriving DecidableEq, Repr

/-- The `clean` method of each variant (the body of the `try` in
`BaseField.is_valid`). -/
def FieldSpec.clean : FieldSpec → Except String PyValue
  | .char required value => (CharField.clean required value).map .str
  | .choice required choices value =>
      (ChoiceField.validate required choices value).map (fun _ => .str value)
  | .dynamicMultipleChoice f => f.validate.map (fun _ => .strList f.value)
  | .multiPartDate progressive required v =>
      (mpClean progressive required v).map CleanedDate.toPyValue
  | .fromDate progressive required v =>
      (fromDateClean progressive required v).map CleanedDate.toPyValue
  | .toDate progressive required v =>
      (toDateClean progressive required v).map CleanedDate.toPyValue

/-- `BaseField.is_valid` on a freshly bound field, together with the
resulting observable state: the returned boolean (`not self._error`), the
error, and the externally visible `cleaned` property (`None` while an
error is present, and also when `clean` itself returned `None`). -/
def FieldSpec.runIsValid (f : FieldSpec) : Bool × Option String × PyValue :=
  match f.clean with
  | .ok v => (true, none, v)
  | .error e => (false, some e, .pyNone)

example : (FieldSpec.toDate true false ⟨"", "", ""⟩).runIsValid = (true, none, .pyNone) := by
  decide
example : (FieldSpec.char false " a ").runIsValid = (true, none, .str "a") := by decide

/-! ## Claim-side description of the per-part date validation (C7) -/

/-- One per-part check as the specification words it: an empty part is
skipped, a non-empty part must parse as an integer within the given
bounds, and a failure is reported with the part's name. -/
def claimPartCheck (part_name : String) (lo hi : Int) (s : String) :
    Except String (Option Int) :=
  if s = "" then .ok none else
    match pyParseInt s with
    | none => .error (part_name ++ " must be an integer.")
    | some n => if lo ≤ n ∧ n ≤ hi then .ok (some n)
        else .error (part_name ++ " must be between " ++ toString lo ++ " and " ++
          toString hi ++ ".")

/-- The specification's per-part validation: the three part checks in
year → month → day order with validation stopping at the first failure,
then — when all three parts parsed to integers — the real-calendar-date
check with its fixed message. -/
def claimPartsValidation (v : DateParts) : Except String Unit :=
  match claimPartCheck "Year" 1 9999 v.year with
  | .error e => .error e
  | .ok yi =>
    match claimPartCheck "Month" 1 12 v.month with
    | .error e => .error e
    | .ok mi =>
      match claimPartCheck "Day" 1 31 v.day with
      | .error e => .error e
      | .ok di =>
        match yi, mi, di with
        | some y, some m, some d =>
            if isRealDate y m d then .ok ()
            else .error "Entered date must be a real date, for example Year 2017, Month 9, Day 23"
        | _, _, _ => .ok ()

/-! ## Helper lemmas -/

/-- The label built from an aggregation entry, written with an explicit
fallback lookup. -/
theorem choice_label_eq (f : DynField) (it : AggEntry) :
    f.choice_label_from_api_data it =
      (f.configured_choice_labels it.value).getD it.value ++
        " (" ++ formatThousands it.doc_count ++ ")" := by
  unfold DynField.choice_label_from_api_data
  cases f.configured_choice_labels it.value <;> rfl

/-- The accumulating loop of `update_choices` evaluated in closed form. -/
theorem update_choices_loop_eq (f : DynField) (api : List AggEntry)
    (a : List (String × String)) (b : List String) :
    api.foldl (fun (acc : List (String × String) × List String) item =>
        (acc.1 ++ [(item.value, f.choice_label_from_api_data item)], acc.2 ++ [item.value]))
      (a, b) =
    (a ++ api.map (fun it => (it.value, f.choice_label_from_api_data it)),
      b ++ api.map AggEntry.value) := by
  induction api generalizing a b with
  | nil => simp
  | cons hd tl ih => simp [List.foldl_cons, ih, List.append_assoc]

/-- C1: `update_choices` replaces `choices` with a freshly built list:
one entry per aggregation entry in order, labelled
"displayLabel (thousands-grouped count)" with the display label looked up
in the originally configured choice labels and falling back to the raw
value; followed by one synthetic "displayLabel (0)" entry per selected
value not among the aggregation entries' values; the prior `choices` list
does not contribute, and `choices_updated` becomes true. -/
theorem update_choices_builds_fresh_list (f : DynField) (api : List AggEntry)
    (sel : List String) (cs : List (String × String)) :
    (f.update_choices api sel).choices =
      api.map (fun it => (it.value,
        (f.configured_choice_labels it.value).getD it.value ++
          " (" ++ formatThousands it.doc_count ++ ")")) ++
      (sel.filter (fun v => ¬ (api.map AggEntry.value).contains v)).map
        (fun v => (v, (f.configured_choice_labels v).getD v ++ " (0)"))
    ∧ (f.update_choices api sel).choices_updated = true
    ∧ ({ f with choices := cs } : DynField).update_choices api sel =
        f.update_choices api sel := by
  refine ⟨?_, ?_, ?_⟩
  · show (DynField.update_choices f api sel).choices = _
    unfold DynField.update_choices
    rw [update_choices_loop_eq]
    simp only [List.nil_append]
    congr 1
    exact List.map_congr_left fun it _ => by rw [choice_label_eq]
  · rfl
  · rfl

/-- C3: on a dynamic field with no error whose choices were never
updated, accessing `items` itself forces a reconciliation with an empty
aggregation list and the field's current bound value as selected values;
in particular with bound value `["x"]` and no configured label for "x",
`items` returns exactly the entry `{"text": "x (0)", "value": "x",
"checked": true}`. -/
theorem items_triggers_lazy_reconciliation (f : DynField)
    (herr : f.error = none) (hupd : f.choices_updated = false) :
    f.items_run = (f.update_choices [] f.value,
        renderChoices (f.update_choices [] f.value).choices f.value)
    ∧ (f.value = ["x"] → f.configured_choice_labels "x" = none →
        f.items_run.2 = [{ text := "x (0)", value := "x", checked := true }]) := by
  have hrun : f.items_run = (f.update_choices [] f.value,
      renderChoices (f.update_choices [] f.value).choices f.value) := by
    unfold DynField.items_run
    rw [herr, hupd]
    rfl
  refine ⟨hrun, fun hv hl => ?_⟩
  rw [hrun]
  show renderChoices (f.update_choices [] f.value).choices f.value = _
  unfold DynField.update_choices
  simp only [List.foldl_nil, hv]
  unfold renderChoices
  simp [hl]

/-- Witness for C3: a freshly constructed dynamic field with no
configured choices bound to `["x"]`. -/
theorem items_triggers_lazy_reconciliation_witness :
    ((DynField.init [] none false).bind ["x"]).items_run.2 =
      [{ text := "x (0)", value := "x", checked := true }] :=
  (items_triggers_lazy_reconciliation ((DynField.init [] none false).bind ["x"])
    rfl rfl).2 rfl rfl

/-- A dynamic field with no configured choices whose choices were
populated by an earlier `update_choices` call and which then received an
error (as `add_error` permits at any time, e.g. from cross-validation). -/
def dynNoConfigUpdatedWithError : DynField :=
  (((DynField.init [] none false).bind []).update_choices [⟨"a", 10⟩] []).add_error
    "Some error"

/-- Counterexample to C4: this errored field's `items` is not empty — the
error branch of `items` skips the coercing reconciliation whenever
`configured_choices` is empty, so the previously updated choices are
still rendered. -/
theorem items_on_error_counterexample :
    dynNoConfigUpdatedWithError.error.isSome = true ∧
      dynNoConfigUpdatedWithError.items_run.2 =
        [{ text := "a (10)", value := "a", checked := false }] ∧
      dynNoConfigUpdatedWithError.items_run.2 ≠ [] := by
  refine ⟨rfl, by decide, by decide⟩

/-- C4 (amended): on a field that currently has an error, `items` forces
a reconciliation with empty aggregation and empty selected values — and
therefore returns an empty list — only when the field has configured
choices; with no configured choices the state is left untouched and the
current `choices` list (whatever it is) is rendered. -/
theorem items_on_error_conditional_coercion (f : DynField)
    (herr : f.error.isSome = true) :
    (f.configured_choices.isEmpty = false →
        f.items_run = (f.update_choices [] [], []))
    ∧ (f.configured_choices.isEmpty = true →
        f.items_run = (f, renderChoices f.choices f.value)) := by
  constructor
  · intro hc
    unfold DynField.items_run
    rw [herr, hc]
    rfl
  · intro hc
    unfold DynField.items_run
    rw [herr, hc]
    rfl

/-- Witness for the amended C4: an errored field with configured choices
renders no items. -/
theorem items_on_error_conditional_coercion_witness :
    ((DynField.init [("a", "A")] none false).add_error "Some error").items_run =
      (((DynField.init [("a", "A")] none false).add_error "Some error").update_choices [] [],
        []) :=
  (items_on_error_conditional_coercion
    ((DynField.init [("a", "A")] none false).add_error "Some error") rfl).1 rfl

/-- C9 evaluated against the code: `process_api_result` never changes
`more_filter_choices_available` — the assignment at
`app/search/views.py` 167 targets the differently spelled attribute
`more_filter_options_available` — so on the failing input (an aggregation
with nonzero "other", as in the repository's own tests) the flag the
field declares, its docstring documents and the tests assert stays
false. -/
theorem process_api_result_leaves_flag_false :
    (∀ (f : DynField) (entries : List AggEntry) (other : Nat),
      (processApiResultField f entries other).more_filter_choices_available =
        f.more_filter_choices_available)
    ∧ (processApiResultField ((DynField.init [] none false).bind [])
        [⟨"BT", 50⟩, ⟨"WO", 35⟩] 50).more_filter_choices_available = false
    ∧ (processApiResultField ((DynField.init [] none false).bind [])
        [⟨"BT", 50⟩, ⟨"WO", 35⟩] 50).more_filter_options_available = some true := by
  exact ⟨fun f entries other => rfl, by decide, by decide⟩

/-- Counterexample to C5: an optional progressive to-date field bound to
all-empty parts is valid with an empty error, yet its cleaned value is
`None` — the claimed three-way equivalence fails in the direction
"valid ⇒ cleaned defined". -/
theorem is_valid_equivalence_counterexample :
    (FieldSpec.toDate true false ⟨"", "", ""⟩).runIsValid.1 = true ∧
      (FieldSpec.toDate true false ⟨"", "", ""⟩).runIsValid.2.1 = none ∧
      (FieldSpec.toDate true false ⟨"", "", ""⟩).runIsValid.2.2 = PyValue.pyNone := by
  decide

/-- C5 (amended): after `is_valid()` runs on any bound field variant, the
returned boolean is true exactly when the error is the empty structure,
and a defined (non-`None`) cleaned value implies the error is empty; the
converse of the latter fails (see the counterexample), so the three-way
equivalence weakens to these two laws. -/
theorem is_valid_iff_no_error (f : FieldSpec) :
    (f.runIsValid.1 = true ↔ f.runIsValid.2.1 = none)
    ∧ (f.runIsValid.2.2 ≠ PyValue.pyNone → f.runIsValid.2.1 = none) := by
  unfold FieldSpec.runIsValid
  cases f.clean <;> simp

/-- Witness for the amended C5: a bound text field with a defined cleaned
value has an empty error. -/
theorem is_valid_iff_no_error_witness :
    (FieldSpec.char false "a").runIsValid.2.1 = none :=
  (is_valid_iff_no_error (FieldSpec.char false "a")).2 (by decide)

/-- C6: when both date fields cleaned to dates with from > to,
`validate_date_range` attaches the fixed field-level error to the
from-field and returns exactly one form-level message naming both
formatted dates; afterwards the from-field's visible `cleaned` is absent
while its internally retained `_cleaned` still equals the
pre-cross-validation date; with a missing cleaned value on either side or
from ≤ to, nothing is added. -/
theorem validate_date_range_spec (date_from date_to : DateFieldState)
    (prefix_text : String) :
    (∀ df dt, date_from.cleaned = some df → date_to.cleaned = some dt →
      (PyDate.ltb dt df = true →
        validateDateRange date_from date_to prefix_text =
          (date_from.add_error dateRangeFieldMsg,
            [dateRangeCrossMsg prefix_text df dt])
        ∧ (validateDateRange date_from date_to prefix_text).1.cleaned = none
        ∧ (validateDateRange date_from date_to prefix_text).1.cleaned_internal = some df)
      ∧ (PyDate.ltb dt df = false →
          validateDateRange date_from date_to prefix_text = (date_from, [])))
    ∧ ((date_from.cleaned = none ∨ date_to.cleaned = none) →
        validateDateRange date_from date_to prefix_text = (date_from, [])) := by
  constructor
  · intro df dt hf ht
    have hfi : date_from.cleaned_internal = some df := by
      unfold DateFieldState.cleaned at hf
      by_cases he : date_from.error = none
      · rwa [if_pos he] at hf
      · rw [if_neg he] at hf; exact absurd hf (by simp)
    constructor
    · intro hlt
      have heq : validateDateRange date_from date_to prefix_text =
          (date_from.add_error dateRangeFieldMsg,
            [dateRangeCrossMsg prefix_text df dt]) := by
        unfold validateDateRange
        rw [hf, ht]
        simp [hlt]
      refine ⟨heq, ?_, ?_⟩
      · rw [heq]
        show (date_from.add_error dateRangeFieldMsg).cleaned = none
        unfold DateFieldState.cleaned DateFieldState.add_error
        simp
      · rw [heq]
        exact hfi
    · intro hlt
      unfold validateDateRange
      rw [hf, ht]
      simp [hlt]
  · intro h
    unfold validateDateRange
    rcases h with h | h
    · rw [h]
    · rw [h]
      cases date_from.cleaned <;> rfl

/-- Witness for C6: from-date 2000-01-01 against to-date 1999-12-31. -/
theorem validate_date_range_spec_witness :
    validateDateRange ⟨some ⟨2000, 1, 1⟩, none⟩ ⟨some ⟨1999, 12, 31⟩, none⟩ "Record dates" =
      ((⟨some ⟨2000, 1, 1⟩, none⟩ : DateFieldState).add_error dateRangeFieldMsg,
        [dateRangeCrossMsg "Record dates" ⟨2000, 1, 1⟩ ⟨1999, 12, 31⟩])
    ∧ (validateDateRange ⟨some ⟨2000, 1, 1⟩, none⟩ ⟨some ⟨1999, 12, 31⟩, none⟩
        "Record dates").1.cleaned = none
    ∧ (validateDateRange ⟨some ⟨2000, 1, 1⟩, none⟩ ⟨some ⟨1999, 12, 31⟩, none⟩
        "Record dates").1.cleaned_internal = some ⟨2000, 1, 1⟩ :=
  ((validate_date_range_spec ⟨some ⟨2000, 1, 1⟩, none⟩ ⟨some ⟨1999, 12, 31⟩, none⟩
    "Record dates").1 ⟨2000, 1, 1⟩ ⟨1999, 12, 31⟩ (by decide) (by decide)).1 (by decide)

/-- C2: a progressive date field whose bound parts validate, include a
year, and are not all three present cleans by progressive completion —
the from-variant defaults a missing month and day to 01, and the
to-variant defaults a missing day to the last day of the month
(leap years included) and a missing month to December 31; in particular
year 2023 alone cleans to 2023-01-01 (from) and 2023-12-31 (to), and
to-dates 2023-02 and 2024-02 clean to 2023-02-28 and 2024-02-29. -/
theorem progressive_date_fill (required : Bool) (v : DateParts)
    (hval : mpValidate true required v = .ok ())
    (hnotall : ¬(v.year ≠ "" ∧ v.month ≠ "" ∧ v.day ≠ ""))
    (hyear : v.year ≠ "") :
    fromDateClean true required v = .ok (.date
      ⟨(pyParseInt v.year).getD 0,
        (pyParseInt (if v.month = "" then "01" else v.month)).getD 0,
        (pyParseInt (if v.day = "" then "01" else v.day)).getD 0⟩)
    ∧ toDateClean true required v = .ok (.date (if v.month ≠ "" then
        ⟨(pyParseInt v.year).getD 0, (pyParseInt v.month).getD 0,
          daysInMonth ((pyParseInt v.year).getD 0) ((pyParseInt v.month).getD 0)⟩
        else ⟨(pyParseInt v.year).getD 0, 12, 31⟩))
    ∧ fromDateClean true false ⟨"2023", "", ""⟩ = .ok (.date ⟨2023, 1, 1⟩)
    ∧ toDateClean true false ⟨"2023", "", ""⟩ = .ok (.date ⟨2023, 12, 31⟩)
    ∧ toDateClean true false ⟨"2023", "2", ""⟩ = .ok (.date ⟨2023, 2, 28⟩)
    ∧ toDateClean true false ⟨"2024", "2", ""⟩ = .ok (.date ⟨2024, 2, 29⟩) := by
  have hclean : mpClean true required v = .ok (.parts v) := by
    unfold mpClean
    rw [hval]
    simp [hnotall]
  refine ⟨?_, ?_, by decide, by decide, by decide, by decide⟩
  · unfold fromDateClean progressiveClean
    rw [hclean]
    simp [hyear, FromDateField.create_date_from_parts]
  · unfold toDateClean progressiveClean
    rw [hclean]
    by_cases hm : v.month = "" <;>
      simp [hyear, hm, ToDateField.create_date_from_parts]

/-- Witness for C2: a progressive to-date bound to year 2023, month 2. -/
theorem progressive_date_fill_witness :
    toDateClean true false ⟨"2023", "2", ""⟩ = .ok (.date ⟨2023, 2, 28⟩) :=
  (progressive_date_fill false ⟨"2023", "2", ""⟩ (by decide) (by decide)
    (by decide)).2.2.2.2.1

/-- The source's year check agrees with the claim-side part check. -/
theorem year_check_eq_claim (v : DateParts) :
    mpValidateYearOnly v = claimPartCheck "Year" 1 9999 v.year := rfl

/-- The source's month check agrees with the claim-side part check. -/
theorem month_check_eq_claim (v : DateParts) :
    mpValidateMonthOnly v = claimPartCheck "Month" 1 12 v.month := rfl

/-- The source's day check agrees with the claim-side part check. -/
theorem day_check_eq_claim (v : DateParts) :
    mpValidateDayOnly v = claimPartCheck "Day" 1 31 v.day := rfl

/-- A part check that succeeds with a value yields one within bounds. -/
theorem claimPartCheck_ok_bounds {part_name : String} {lo hi : Int} {s : String} {n : Int}
    (h : claimPartCheck part_name lo hi s = .ok (some n)) : lo ≤ n ∧ n ≤ hi := by
  unfold claimPartCheck at h
  split at h
  · simp at h
  · split at h
    · simp at h
    · split at h
      · simp only [Except.ok.injEq, Option.some.injEq] at h
        subst h
        assumption
      · simp at h

/-- Counterexample to C7 as stated: where all three parts parse but the
combination is impossible, the raised message carries no trailing full
stop, so validation does not fail with the claim's quoted message. -/
theorem real_date_message_counterexample :
    mpValidate true false ⟨"2023", "2", "30"⟩ ≠
      .error "Entered date must be a real date, for example Year 2017, Month 9, Day 23." := by
  decide

/-- C7 (amended): for inputs passing the required and completeness
checks, `MultiPartDateField.validate` behaves exactly as the claim-side
per-part validation — year in [1, 9999], month in [1, 12], day in
[1, 31], each failure reported with the part's name and stopping the
year → month → day sequence, then the real-calendar-date check — with
the real-date message carrying no trailing full stop. -/
theorem mp_validate_refines_part_checks (progressive required : Bool) (v : DateParts)
    (hreq : mpValidateRequired progressive required v = .ok ())
    (hcomp : progressive = false → mpIsCompleteDate v = true) :
    mpValidate progressive required v = claimPartsValidation v := by
  unfold mpValidate
  rw [hreq]
  have hnc : ¬(¬ progressive = true ∧ ¬ mpIsCompleteDate v = true) := by
    cases progressive
    · intro hpair
      exact hpair.2 (hcomp rfl)
    · intro hpair
      exact hpair.1 rfl
  rw [if_neg hnc]
  rw [year_check_eq_claim, month_check_eq_claim, day_check_eq_claim]
  unfold claimPartsValidation
  cases hy : claimPartCheck "Year" 1 9999 v.year with
  | error e => rfl
  | ok yi =>
    cases hm : claimPartCheck "Month" 1 12 v.month with
    | error e => rfl
    | ok mi =>
      cases hd : claimPartCheck "Day" 1 31 v.day with
      | error e => rfl
      | ok di =>
        cases yi with
        | none => cases mi <;> cases di <;> simp [pyTruthyOptInt]
        | some y =>
          cases mi with
          | none => cases di <;> simp [pyTruthyOptInt]
          | some m =>
            cases di with
            | none => simp [pyTruthyOptInt]
            | some d =>
              obtain ⟨hy1, _⟩ := claimPartCheck_ok_bounds hy
              obtain ⟨hm1, _⟩ := claimPartCheck_ok_bounds hm
              obtain ⟨hd1, _⟩ := claimPartCheck_ok_bounds hd
              have hyne : y ≠ 0 := by omega
              have hmne : m ≠ 0 := by omega
              have hdne : d ≠ 0 := by omega
              simp [pyTruthyOptInt, hyne, hmne, hdne, mpValidateFullDate]

/-- Witness for the amended C7: the impossible 30th of February passes
the required and completeness stages and reaches the part checks. -/
theorem mp_validate_refines_part_checks_witness :
    mpValidate true false ⟨"2023", "2", "30"⟩ = claimPartsValidation ⟨"2023", "2", "30"⟩ :=
  mp_validate_refines_part_checks true false ⟨"2023", "2", "30"⟩ (by decide)
    (fun h => absurd h (by decide))

/-- Counterexample to C8: a required choice field bound to the empty
string fails with the required error, not the invalid-choice error, even
though the empty string is not among the choice values — and even when
the empty string IS a configured value, so a configured value does not
always validate. -/
theorem choice_validate_counterexample :
    ChoiceField.validate true [("a", "A")] "" = .error "Value is required."
    ∧ (["a"].contains "" = false)
    ∧ "Value is required." ≠ invalidChoiceMsg ["a"] ""
    ∧ ChoiceField.validate true [("", "All records")] "" = .error "Value is required." := by
  exact ⟨by decide, by decide, by decide, by decide⟩

/-- C8 (amended): `ChoiceField.validate` fails with the required error
when the field is required and the bound value is empty; otherwise it
fails with the invalid-choice error — listing the offending value and the
configured values in order — exactly when the bound value is not a
configured choice value, and succeeds otherwise; `items` marks
`checked: true` exactly on the entries whose value equals the bound
value. -/
theorem choice_validate_characterisation (required : Bool)
    (choices : List (String × String)) (value : String) :
    ChoiceField.validate required choices value =
      (if required = true ∧ value = "" then .error "Value is required."
       else if (choices.map Prod.fst).contains value then .ok ()
       else .error (invalidChoiceMsg (choices.map Prod.fst) value))
    ∧ ChoiceField.items choices value =
        choices.map (fun p =>
          { text := p.2, value := p.1, checked := decide (p.1 = value) }) := by
  constructor
  · unfold ChoiceField.validate baseValidateStr
    cases required with
    | false => simp
    | true =>
      by_cases hv : value = ""
      · simp [hv]
      · simp [hv]
  · unfold ChoiceField.items
    apply List.map_congr_left
    intro p _
    by_cases hp : p.1 = value
    · simp [hp]
    · simp [hp]

/-- The last element of a list of empty strings, with an empty default,
is the empty string. -/
theorem getLastD_all_empty (l : List String) (d : String)
    (h : ∀ x ∈ l, x = "") (hd : d = "") : l.getLastD d = "" := by
  induction l generalizing d with
  | nil => exact hd
  | cons a t ih =>
    rw [List.getLastD_cons]
    exact ih a (fun x hx => h x (List.mem_cons_of_mem _ hx)) (h a (List.mem_cons_self _ _))

/-- C10: a `ChoiceField` bound from a missing key or one carrying only
empty values binds the empty string (the last-element rule applied to the
defaulted `[""]`), and then — although `required` is false — validation
fails with the invalid-choice error unless `""` is itself a configured
choice value; the `online` and `filter_list` configurations do configure
a choice with value `""`. -/
theorem choice_empty_binding_validation (choices : List (String × String))
    (input : List String) (h : input = [] ∨ ∀ x ∈ input, x = "") :
    choiceBindValue input = ""
    ∧ ("" ∈ choices.map Prod.fst →
        ChoiceField.validate false choices (choiceBindValue input) = .ok ())
    ∧ ("" ∉ choices.map Prod.fst →
        ChoiceField.validate false choices (choiceBindValue input) =
          .error (invalidChoiceMsg (choices.map Prod.fst) ""))
    ∧ "" ∈ onlineChoices.map Prod.fst
    ∧ "" ∈ asInputChoicesForLongAggs.map Prod.fst := by
  have hb : choiceBindValue input = "" := by
    rcases h with rfl | hall
    · rfl
    · unfold choiceBindValue pyLast
      by_cases he : input.isEmpty
      · rw [if_pos he]; rfl
      · rw [if_neg he]
        exact getLastD_all_empty input "" hall rfl
  refine ⟨hb, ?_, ?_, by decide, by decide⟩
  · intro hmem
    rw [hb]
    unfold ChoiceField.validate baseValidateStr
    have hc : (choices.map Prod.fst).contains "" = true := by simpa using hmem
    simp only [hc]
    rfl
  · intro hmem
    rw [hb]
    unfold ChoiceField.validate baseValidateStr
    have hc : (choices.map Prod.fst).contains "" = false := by simpa using hmem
    simp only [hc]
    rfl

/-- Witness for C10: a missing key against choices not containing the
empty value yields the invalid-choice error despite `required = false`. -/
theorem choice_empty_binding_validation_witness :
    ChoiceField.validate false [("a", "A")] (choiceBindValue []) =
      .error (invalidChoiceMsg ["a"] "") :=
  (choice_empty_binding_validation [("a", "A")] [] (Or.inl rfl)).2.2.1 (by decide)
